import Mathlib

/-!
Verification development for the galaxy-morphology repository
(galaxymorph.py).  The file shallowly embeds:

* the data pipeline of the `galaxy` class — loading columns, the
  arcsec-to-kpc radius conversion, the finiteness mask of
  `galaxy_fit2`, and the argument packages both fit methods hand to the
  external Levenberg-Marquardt solver — over an explicit model of
  floating-point cells (finite values represented exactly as rationals,
  plus the non-finite IEEE values);
* the Sersic radial-brightness function of astropy `Sersic1D` and the
  additive two-component compound model, over the reals;
* the control flow of the two fit methods around the external solver
  call (try/except placement, the covariance post-processing that
  raises when `param_cov` is absent).
-/

/-- One numpy floating-point cell: a finite value (held exactly as a
rational) or one of the non-finite IEEE values. -/
inductive FloatVal where
  | fin (x : ℚ)
  | posinf
  | neginf
  | nan
  deriving DecidableEq, Repr

/-- `np.isfinite` on one cell: true exactly on finite values (zero is
finite). -/
def FloatVal.isFinite : FloatVal → Bool
  | .fin _ => true
  | _ => false

/-- numpy elementwise reciprocal `1 / x` on one cell: `1 / 0.0`
evaluates to `+inf` (a runtime warning, not an exception),
`1 / (±inf) = 0`, `1 / nan = nan`. -/
def FloatVal.recip : FloatVal → FloatVal
  | .fin x => if x = 0 then .posinf else .fin (1 / x)
  | .posinf => .fin 0
  | .neginf => .fin 0
  | .nan => .nan

/-- The scalar conversion `distance * angle / 206` applied to one cell
(galaxymorph.py line 29), with IEEE semantics on non-finite cells. -/
def FloatVal.scaleRadius (d : ℚ) : FloatVal → FloatVal
  | .fin x => .fin (d * x / 206)
  | .posinf => if 0 < d then .posinf else if d < 0 then .neginf else .nan
  | .neginf => if 0 < d then .neginf else if d < 0 then .posinf else .nan
  | .nan => .nan

/-- numpy boolean-mask indexing `arr[mask]`: keep the entries whose mask
bit is true.  Boolean indexing returns a fresh array. -/
def maskFilter {α : Type} : List α → List Bool → List α
  | _, [] => []
  | [], _ :: _ => []
  | x :: xs, b :: bs => if b then x :: maskFilter xs bs else maskFilter xs bs

/-- Elementwise conjunction of two boolean arrays (numpy `&`). -/
def andMask (xs ys : List Bool) : List Bool := List.zipWith and xs ys

/-- galaxymorph.py line 110:
`mask = np.isfinite(radius) & np.isfinite(SB) & np.isfinite(SB_err)`. -/
def finiteMask (rs ss es : List FloatVal) : List Bool :=
  andMask (andMask (rs.map FloatVal.isFinite) (ss.map FloatVal.isFinite))
    (es.map FloatVal.isFinite)

/-- Index-aligned triple view of the three data columns. -/
def zipTriple {α β γ : Type} (xs : List α) (ys : List β) (zs : List γ) :
    List (α × β × γ) :=
  List.zipWith (fun x p => (x, p)) xs (List.zipWith Prod.mk ys zs)

/-- All three cells of one measurement are finite. -/
def allFinite3 (t : FloatVal × FloatVal × FloatVal) : Bool :=
  t.1.isFinite && t.2.1.isFinite && t.2.2.isFinite

/-- The `galaxy` object state: name, distance (Mpc), the three loaded
columns, and the derived physical radius. -/
structure Galaxy where
  name : String
  distance : ℚ
  arcsec : List FloatVal
  SB : List FloatVal
  SB_err : List FloatVal
  radius : List FloatVal
  deriving DecidableEq, Repr

/-- `galaxy.__init__` (galaxymorph.py lines 21-29): store the three
loaded columns and derive `radius = distance * arcsec / 206`
elementwise, once, at construction. -/
def galaxyInit (name : String) (distance : ℚ)
    (arcsec SB SB_err : List FloatVal) : Galaxy :=
  { name := name, distance := distance, arcsec := arcsec, SB := SB,
    SB_err := SB_err,
    radius := arcsec.map (FloatVal.scaleRadius distance) }

/-- Initial-guess triple for one `Sersic1D` component. -/
structure SersicGuess where
  amplitude : ℚ
  r_eff : ℚ
  n : ℚ
  deriving DecidableEq, Repr

/-- The model template handed to the fitter: one component
(`galaxy_fit1`) or the sum of two (`galaxy_fit2`). -/
inductive ModelSpec where
  | single (p : SersicGuess)
  | double (p1 p2 : SersicGuess)
  deriving DecidableEq, Repr

/-- The argument package of the solver invocation
`fit(model, x, y, weights, maxiter)`. -/
structure SolverCall where
  model : ModelSpec
  xs : List FloatVal
  ys : List FloatVal
  weights : List FloatVal
  maxiter : ℕ
  deriving DecidableEq, Repr

/-- `galaxy_fit1` up to the solver invocation (galaxymorph.py lines
62-69): the body reads the stored arrays and assigns no attribute, so
the explicit post-state is the pre-state; the fitter receives the
UNfiltered stored arrays with `weights = 1 / self.SB_err` and
`maxiter = 500000`. -/
def galaxy_fit1_call (g : Galaxy) (a r nm : ℚ) : Galaxy × SolverCall :=
  (g, { model := .single ⟨a, r, nm⟩, xs := g.radius, ys := g.SB,
        weights := g.SB_err.map FloatVal.recip, maxiter := 500000 })

/-- `galaxy_fit2` lines 109-115: the finiteness mask and the three
filtered local arrays (fresh values; no attribute is assigned). -/
def galaxy_fit2_filtered (g : Galaxy) :
    List FloatVal × List FloatVal × List FloatVal :=
  let mask := finiteMask g.radius g.SB g.SB_err
  (maskFilter g.radius mask, maskFilter g.SB mask, maskFilter g.SB_err mask)

/-- `galaxy_fit2` up to the solver invocation (galaxymorph.py lines
109-129): mask the data, build the two-component model, and call the
fitter on the filtered arrays with `weights = 1 / SB_err_filtered` and
`maxiter = 5000`.  No attribute is assigned. -/
def galaxy_fit2_call (g : Galaxy) (p1 p2 : SersicGuess) :
    Galaxy × SolverCall :=
  let f := galaxy_fit2_filtered g
  (g, { model := .double p1 p2, xs := f.1, ys := f.2.1,
        weights := f.2.2.map FloatVal.recip, maxiter := 5000 })

/-- Example galaxy used by concrete witnesses: distance 1 Mpc, three
measurements, all cells finite, with a zero brightness error at
index 1. -/
def gZero : Galaxy :=
  galaxyInit "Zed" 1 [.fin 206, .fin 412, .fin 618]
    [.fin 10, .fin 5, .fin 2] [.fin 1, .fin 0, .fin 1]

/-- Example galaxy with a NaN brightness at index 1 (so the finiteness
mask actually drops a row). -/
def gNaN : Galaxy :=
  galaxyInit "Enn" 2 [.fin 103, .fin 206] [.fin 10, .nan] [.fin 1, .fin 2]

/-- The default first-component initial guess of `galaxy_fit2`. -/
def pGuess1 : SersicGuess := ⟨17 / 100, 13 / 5, 1⟩

/-- The default second-component initial guess of `galaxy_fit2`. -/
def pGuess2 : SersicGuess := ⟨1 / 10, 17 / 5, 21 / 5⟩

/-- On the all-finite example galaxy the mask drops nothing: the
filtered error column still holds the zero error. -/
theorem gZero_filtered_err :
    (galaxy_fit2_filtered gZero).2.2 = [.fin 1, .fin 0, .fin 1] := by
  norm_num [galaxy_fit2_filtered, gZero, galaxyInit, finiteMask, andMask,
    maskFilter, FloatVal.isFinite, FloatVal.scaleRadius]

/-- The weight vector the two-component fit builds on the example
galaxy: the zero error becomes the weight `+inf`. -/
theorem gZero_weights :
    (galaxy_fit2_call gZero pGuess1 pGuess2).2.weights =
      [.fin 1, .posinf, .fin 1] := by
  norm_num [galaxy_fit2_call, galaxy_fit2_filtered, gZero, galaxyInit,
    finiteMask, andMask, maskFilter, FloatVal.isFinite, FloatVal.recip,
    FloatVal.scaleRadius]

/-- Outcome of the external `LevMarLSQFitter` invocation: either the
call raises with a diagnostic message, or it returns normally with a
`fit_info` record whose `param_cov` entry is a covariance matrix
(abstracted to its diagonal) or None. -/
inductive SolverOutcome where
  | raises (msg : String)
  | returns (param_cov : Option (List ℚ))
  deriving DecidableEq, Repr

/-- A Python exception escaping a fit method: either the error numpy
raises when `np.diag` is applied to the None stored in `param_cov`
(a 0-d object array, rejected before `np.sqrt` runs), or the solver
exception itself. -/
inductive PyError where
  | numpyDiagNone
  | solverError (msg : String)
  deriving DecidableEq, Repr

/-- How a fit-method invocation terminates: a normal return of None, or
an uncaught exception propagating to the caller. -/
inductive PyOutcome where
  | ok
  | exn (e : PyError)
  deriving DecidableEq, Repr

/-- Console output and termination of one fit-method run.  Lines whose
exact text is produced by external repr code are abstracted to fixed
placeholder strings. -/
structure FitRun where
  printed : List String
  outcome : PyOutcome
  deriving DecidableEq, Repr

/-- Control flow of `galaxy_fit1` around the solver (galaxymorph.py
lines 66-98).  There is no try/except, so a raising solver call escapes
the method.  After a normal solver return, the empty line and the
best-fit parameters are printed, then
`cov_diag = np.sqrt(np.diag(fit_info[param_cov]))` runs: when
`param_cov` is None this raises, and the exception escapes; otherwise
the error line is printed and the method falls through to plotting and
returns None. -/
def galaxy_fit1_run (s : SolverOutcome) : FitRun :=
  match s with
  | .raises msg => ⟨[], .exn (.solverError msg)⟩
  | .returns none => ⟨["", "<best-fit parameters>"], .exn .numpyDiagNone⟩
  | .returns (some _) =>
      ⟨["", "<best-fit parameters>", "error = <cov_diag>"], .ok⟩

/-- Control flow of `galaxy_fit2` around the solver (galaxymorph.py
lines 128-163).  The try/except covers ONLY the fit call (lines
128-132): a raising solver call is caught, the diagnostic is printed,
and the method returns None.  After a normal solver return, the
parameters are printed, then the covariance line (line 139) runs
OUTSIDE the handler, so when `param_cov` is None the numpy exception
escapes the method — after the best-fit parameters were already
printed. -/
def galaxy_fit2_run (s : SolverOutcome) : FitRun :=
  match s with
  | .raises msg => ⟨["Error during fitting: " ++ msg], .ok⟩
  | .returns none => ⟨["", "<best-fit parameters>"], .exn .numpyDiagNone⟩
  | .returns (some _) =>
      ⟨["", "<best-fit parameters>", "error = <cov_diag>"], .ok⟩

/-- Whether a run ended in an escaping failure that carries the solver
diagnostic (an exception whose payload is the solver message). -/
def FitRun.failsWithSolverDiag (r : FitRun) : Bool :=
  match r.outcome with
  | .exn (.solverError _) => true
  | _ => false

/-- The normalization constant of the Sersic profile, `b_n(n)`.  In the
source this is computed by the external routine
`gammaincinv(2 * n, 0.5)` inside astropy `Sersic1D`, a numeric routine
outside this repository; the spec accepts any standard approximation.
Every theorem below quantifies over an arbitrary normalization
function, so nothing depends on this choice; this standard first-order
approximation (`b_n` close to `2 n - 1/3`) only instantiates the
quantifier in concrete witnesses. -/
noncomputable def b_n_std (n : ℝ) : ℝ := 2 * n - 1 / 3

/-- astropy `Sersic1D.evaluate`, the model built at galaxymorph.py
lines 63, 118 and 119:
`amplitude * exp(-b_n(n) * ((r / r_eff) ** (1 / n) - 1))`, with the
normalization `b_n` passed as a parameter (see `b_n_std`).  The real
power is `Real.rpow`, which agrees with numpy `**` on the nonnegative
bases that arise for `r >= 0`, `r_eff > 0`. -/
noncomputable def sersic1D (bn : ℝ → ℝ) (amplitude r_eff n r : ℝ) : ℝ :=
  amplitude * Real.exp (-(bn n) * ((r / r_eff) ^ ((1 : ℝ) / n) - 1))

/-- Line 122, `Sersic_total_init = Sersic1_init + Sersic2_init`,
evaluated on a radius array: the astropy compound model with the `+`
operator evaluates both operands at the same input and adds the
results elementwise. -/
noncomputable def sersicTotalEval (bn : ℝ → ℝ) (a1 re1 n1 a2 re2 n2 : ℝ)
    (xs : List ℝ) : List ℝ :=
  xs.map (fun r => sersic1D bn a1 re1 n1 r + sersic1D bn a2 re2 n2 r)

/-- Keeping a mask entry of `true` keeps the head. -/
theorem maskFilter_cons_true {α : Type} (x : α) (xs : List α)
    (bs : List Bool) : maskFilter (x :: xs) (true :: bs) = x :: maskFilter xs bs :=
  rfl

/-- A mask entry of `false` drops the head. -/
theorem maskFilter_cons_false {α : Type} (x : α) (xs : List α)
    (bs : List Bool) : maskFilter (x :: xs) (false :: bs) = maskFilter xs bs :=
  rfl

/-- `zipTriple` on three cons cells. -/
theorem zipTriple_cons {α β γ : Type} (x : α) (y : β) (z : γ)
    (xs : List α) (ys : List β) (zs : List γ) :
    zipTriple (x :: xs) (y :: ys) (z :: zs) = (x, y, z) :: zipTriple xs ys zs :=
  rfl

/-- The finiteness mask on three cons cells. -/
theorem finiteMask_cons (r s e : FloatVal) (rs ss es : List FloatVal) :
    finiteMask (r :: rs) (s :: ss) (e :: es)
      = ((r.isFinite && s.isFinite) && e.isFinite) :: finiteMask rs ss es :=
  rfl

/-- Applying the three-column finiteness mask to the three columns of
equal length retains, in order, exactly the measurements whose three
cells are all finite: index-aligned, the filtered triple is the
`allFinite3` filter of the zipped original. -/
theorem maskFilter_finiteMask_zipTriple (rs : List FloatVal) :
    ∀ ss es : List FloatVal, rs.length = ss.length →
      ss.length = es.length →
      zipTriple (maskFilter rs (finiteMask rs ss es))
          (maskFilter ss (finiteMask rs ss es))
          (maskFilter es (finiteMask rs ss es))
        = (zipTriple rs ss es).filter allFinite3 := by
  induction rs with
  | nil =>
      intro ss es h1 h2
      obtain rfl : ss = [] := List.length_eq_zero.mp h1.symm
      obtain rfl : es = [] := List.length_eq_zero.mp h2.symm
      rfl
  | cons r rs ih =>
      intro ss es h1 h2
      cases ss with
      | nil => simp at h1
      | cons s ss =>
        cases es with
        | nil => simp at h2
        | cons e es =>
          simp only [List.length_cons, Nat.add_right_cancel_iff] at h1 h2
          rw [finiteMask_cons]
          have hall : allFinite3 (r, s, e)
              = ((r.isFinite && s.isFinite) && e.isFinite) := rfl
          cases hb : ((r.isFinite && s.isFinite) && e.isFinite) with
          | true =>
              rw [hb] at hall
              rw [maskFilter_cons_true, maskFilter_cons_true,
                maskFilter_cons_true, zipTriple_cons, zipTriple_cons,
                List.filter_cons, if_pos hall]
              exact congrArg _ (ih ss es h1 h2)
          | false =>
              rw [maskFilter_cons_false, maskFilter_cons_false,
                maskFilter_cons_false, zipTriple_cons, List.filter_cons]
              rw [hb] at hall
              simp only [hall, Bool.false_eq_true, if_false]
              exact ih ss es h1 h2

/-- On three equal-length columns whose cells are all finite, the
finiteness mask is identically true. -/
theorem finiteMask_all_finite (rs : List FloatVal) :
    ∀ ss es : List FloatVal, rs.length = ss.length →
      ss.length = es.length →
      (∀ v ∈ rs, v.isFinite = true) → (∀ v ∈ ss, v.isFinite = true) →
      (∀ v ∈ es, v.isFinite = true) →
      finiteMask rs ss es = List.replicate rs.length true := by
  induction rs with
  | nil =>
      intro ss es h1 h2 _ _ _
      obtain rfl : ss = [] := List.length_eq_zero.mp h1.symm
      obtain rfl : es = [] := List.length_eq_zero.mp h2.symm
      rfl
  | cons r rs ih =>
      intro ss es h1 h2 hr hs he
      cases ss with
      | nil => simp at h1
      | cons s ss =>
        cases es with
        | nil => simp at h2
        | cons e es =>
          simp only [List.length_cons, Nat.add_right_cancel_iff] at h1 h2
          rw [finiteMask_cons, List.length_cons, List.replicate_succ]
          have hrh := hr r (List.mem_cons_self r rs)
          have hsh := hs s (List.mem_cons_self s ss)
          have heh := he e (List.mem_cons_self e es)
          rw [hrh, hsh, heh]
          refine congrArg _ (ih ss es h1 h2 ?_ ?_ ?_)
          · exact fun v hv => hr v (List.mem_cons_of_mem r hv)
          · exact fun v hv => hs v (List.mem_cons_of_mem s hv)
          · exact fun v hv => he v (List.mem_cons_of_mem e hv)

/-- An identically-true mask keeps every entry. -/
theorem maskFilter_replicate_true {α : Type} (xs : List α) :
    maskFilter xs (List.replicate xs.length true) = xs := by
  induction xs with
  | nil => rfl
  | cons x xs ih =>
      rw [List.length_cons, List.replicate_succ, maskFilter_cons_true, ih]

/-- Helper: the Sersic brightness at radius 0, for any positive index:
the power term vanishes and the value is `amplitude * exp(b_n(n))`. -/
theorem sersic1D_zero_eval (bn : ℝ → ℝ) (a re n : ℝ) (hn : 0 < n) :
    sersic1D bn a re n 0 = a * Real.exp (bn n) := by
  unfold sersic1D
  rw [zero_div, Real.zero_rpow (by positivity : (1 : ℝ) / n ≠ 0)]
  norm_num

/-- Modelled from the spec: the residual convention of the external
weighted least-squares solver (astropy `LevMarLSQFitter`, a library
outside this repository): the weight multiplies the residual, not its
square, inside the internal squaring, so the contribution of point i is
`weight_i * (observed_i - predicted_i)`. -/
def weightedResidual (w obs pred : ℝ) : ℝ := w * (obs - pred)

/-- Claim C1: for every normalization function, any amplitude, and any
effective_radius > 0 and sersic_index > 0, the Sersic brightness at
radius = effective_radius is exactly the amplitude: the exponent
`(radius/effective_radius)^(1/sersic_index) - 1` vanishes there. -/
theorem sersic1D_at_r_eff (bn : ℝ → ℝ) (a re n : ℝ)
    (hre : 0 < re) (hn : 0 < n) :
    sersic1D bn a re n re = a := by
  unfold sersic1D
  rw [div_self (ne_of_gt hre), Real.one_rpow]
  norm_num

/-- Witness for C1 at normalization `b_n_std`, amplitude 5,
effective radius 3, index 2. -/
theorem sersic1D_at_r_eff_witness :
    (0 : ℝ) < 3 ∧ (0 : ℝ) < 2 ∧ sersic1D b_n_std 5 3 2 3 = 5 :=
  ⟨by norm_num, by norm_num,
    sersic1D_at_r_eff b_n_std 5 3 2 (by norm_num) (by norm_num)⟩

/-- Claim C2: for every pair of Sersic components and every radius
array (0 included, since the radius entries range over all reals),
the two-component compound model yields an array of the same length
whose i-th entry is the sum of the two components each evaluated
independently at the i-th radius. -/
theorem sersicTotalEval_elementwise (bn : ℝ → ℝ)
    (a1 re1 n1 a2 re2 n2 : ℝ) (xs : List ℝ) :
    (sersicTotalEval bn a1 re1 n1 a2 re2 n2 xs).length = xs.length ∧
    sersicTotalEval bn a1 re1 n1 a2 re2 n2 xs =
      List.zipWith (· + ·) (xs.map (sersic1D bn a1 re1 n1))
        (xs.map (sersic1D bn a2 re2 n2)) := by
  constructor
  · simp [sersicTotalEval]
  · induction xs with
    | nil => rfl
    | cons x xs ih =>
        rw [show sersicTotalEval bn a1 re1 n1 a2 re2 n2 (x :: xs)
              = (sersic1D bn a1 re1 n1 x + sersic1D bn a2 re2 n2 x)
                :: sersicTotalEval bn a1 re1 n1 a2 re2 n2 xs from rfl,
          List.map_cons, List.map_cons, List.zipWith_cons_cons]
        exact congrArg _ ih

/-- Claim C3: in both fits, the weight vector handed to the solver is
the elementwise reciprocal of the relevant brightness-error array
(1/sigma, not 1/sigma^2): both weight vectors are the `recip` image of
the respective error arrays, a finite nonzero error e yields the weight
`1/e` at the same index, and under the solver residual convention that
weight scales the residual to `(observed - predicted) / e`. -/
theorem fit_weights_are_reciprocal_errors (g : Galaxy) (a r nm : ℚ)
    (p1 p2 : SersicGuess) (i : ℕ) (e : ℚ) (he : e ≠ 0)
    (obs pred : ℝ) :
    (galaxy_fit1_call g a r nm).2.weights = g.SB_err.map FloatVal.recip ∧
    (galaxy_fit2_call g p1 p2).2.weights
      = (galaxy_fit2_filtered g).2.2.map FloatVal.recip ∧
    (g.SB_err[i]? = some (.fin e) →
      (galaxy_fit1_call g a r nm).2.weights[i]? = some (.fin (1 / e))) ∧
    ((galaxy_fit2_filtered g).2.2[i]? = some (.fin e) →
      (galaxy_fit2_call g p1 p2).2.weights[i]? = some (.fin (1 / e))) ∧
    weightedResidual (1 / (e : ℝ)) obs pred = (obs - pred) / (e : ℝ) := by
  refine ⟨rfl, rfl, ?_, ?_, ?_⟩
  · intro h
    show (g.SB_err.map FloatVal.recip)[i]? = _
    rw [List.getElem?_map, h]
    simp [FloatVal.recip, he]
  · intro h
    show ((galaxy_fit2_filtered g).2.2.map FloatVal.recip)[i]? = _
    rw [List.getElem?_map, h]
    simp [FloatVal.recip, he]
  · unfold weightedResidual
    rw [one_div_mul_eq_div]

/-- Witness for C3 on the example galaxy, index 0, error 1,
observed 10, predicted 7. -/
theorem fit_weights_are_reciprocal_errors_witness :
    (1 : ℚ) ≠ 0 ∧
    gZero.SB_err[0]? = some (.fin 1) ∧
    (galaxy_fit2_filtered gZero).2.2[0]? = some (.fin 1) ∧
    (galaxy_fit1_call gZero 1 2 4).2.weights[0]? = some (.fin (1 / 1)) ∧
    (galaxy_fit2_call gZero pGuess1 pGuess2).2.weights[0]?
      = some (.fin (1 / 1)) ∧
    weightedResidual (1 / ((1 : ℚ) : ℝ)) 10 7 = (10 - 7) / ((1 : ℚ) : ℝ) := by
  have hf : (galaxy_fit2_filtered gZero).2.2[0]? = some (.fin 1) := by
    rw [gZero_filtered_err]
    rfl
  have h := fit_weights_are_reciprocal_errors gZero 1 2 4 pGuess1 pGuess2
    0 1 (by norm_num) 10 7
  exact ⟨by norm_num, rfl, hf, h.2.2.1 rfl, h.2.2.2.1 hf, h.2.2.2.2⟩

/-- Claim C4: the filtering is asymmetric exactly as claimed: the
two-component fit retains, in order, exactly the measurements whose
radius, brightness and error cells are all finite, while the
single-component fit hands the solver the stored arrays with no
filtering at all. -/
theorem fit2_masks_fit1_passes_raw (g : Galaxy) (a r nm : ℚ)
    (p1 p2 : SersicGuess)
    (h1 : g.radius.length = g.SB.length)
    (h2 : g.SB.length = g.SB_err.length) :
    (galaxy_fit1_call g a r nm).2.xs = g.radius ∧
    (galaxy_fit1_call g a r nm).2.ys = g.SB ∧
    (galaxy_fit1_call g a r nm).2.weights = g.SB_err.map FloatVal.recip ∧
    zipTriple (galaxy_fit2_filtered g).1 (galaxy_fit2_filtered g).2.1
        (galaxy_fit2_filtered g).2.2
      = (zipTriple g.radius g.SB g.SB_err).filter allFinite3 ∧
    (galaxy_fit2_call g p1 p2).2.xs = (galaxy_fit2_filtered g).1 ∧
    (galaxy_fit2_call g p1 p2).2.ys = (galaxy_fit2_filtered g).2.1 :=
  ⟨rfl, rfl, rfl, maskFilter_finiteMask_zipTriple _ _ _ h1 h2, rfl, rfl⟩

/-- Witness for C4 on the galaxy with a NaN brightness at index 1: the
mask drops that measurement for the two-component fit while the
single-component fit still receives both stored rows. -/
theorem fit2_masks_fit1_passes_raw_witness :
    gNaN.radius.length = gNaN.SB.length ∧
    gNaN.SB.length = gNaN.SB_err.length ∧
    ((galaxy_fit1_call gNaN 1 1 4).2.xs = gNaN.radius ∧
      (galaxy_fit1_call gNaN 1 1 4).2.ys = gNaN.SB ∧
      (galaxy_fit1_call gNaN 1 1 4).2.weights
        = gNaN.SB_err.map FloatVal.recip ∧
      zipTriple (galaxy_fit2_filtered gNaN).1 (galaxy_fit2_filtered gNaN).2.1
          (galaxy_fit2_filtered gNaN).2.2
        = (zipTriple gNaN.radius gNaN.SB gNaN.SB_err).filter allFinite3 ∧
      (galaxy_fit2_call gNaN pGuess1 pGuess2).2.xs
        = (galaxy_fit2_filtered gNaN).1 ∧
      (galaxy_fit2_call gNaN pGuess1 pGuess2).2.ys
        = (galaxy_fit2_filtered gNaN).2.1) :=
  ⟨rfl, rfl, fit2_masks_fit1_passes_raw gNaN 1 1 4 pGuess1 pGuess2 rfl rfl⟩

/-- Counterexample to claim C5 as stated: on a galaxy whose cells are
all finite except for a ZERO brightness error at index 1, the masking
step does NOT drop the zero-error point (`np.isfinite(0.0)` is true):
the filtered error column still contains the zero, and the degenerate
weight `1/0`, evaluated by numpy to `+inf`, IS handed to the solver. -/
theorem fit2_zero_error_reaches_solver :
    gZero.SB_err = [.fin 1, .fin 0, .fin 1] ∧
    (galaxy_fit2_filtered gZero).2.2 = [.fin 1, .fin 0, .fin 1] ∧
    (galaxy_fit2_call gZero pGuess1 pGuess2).2.weights
      = [.fin 1, .posinf, .fin 1] :=
  ⟨rfl, gZero_filtered_err, gZero_weights⟩

/-- Claim C5 (amended): when every cell of the three stored columns is
finite — a zero brightness error is finite — the two-component fit's
mask drops nothing: the filtered triple equals the stored triple, and a
zero error at index i yields the weight `+inf` at index i of the array
handed to the solver. -/
theorem fit2_zero_error_weight_inf (g : Galaxy) (p1 p2 : SersicGuess)
    (i : ℕ)
    (h1 : g.radius.length = g.SB.length)
    (h2 : g.SB.length = g.SB_err.length)
    (hr : ∀ v ∈ g.radius, v.isFinite = true)
    (hs : ∀ v ∈ g.SB, v.isFinite = true)
    (he : ∀ v ∈ g.SB_err, v.isFinite = true)
    (hz : g.SB_err[i]? = some (.fin 0)) :
    galaxy_fit2_filtered g = (g.radius, g.SB, g.SB_err) ∧
    (galaxy_fit2_call g p1 p2).2.weights[i]? = some .posinf := by
  have hmask : finiteMask g.radius g.SB g.SB_err
      = List.replicate g.radius.length true :=
    finiteMask_all_finite _ _ _ h1 h2 hr hs he
  have e1 : maskFilter g.radius (List.replicate g.radius.length true)
      = g.radius := maskFilter_replicate_true _
  have e2 : maskFilter g.SB (List.replicate g.radius.length true)
      = g.SB := by rw [h1]; exact maskFilter_replicate_true _
  have e3 : maskFilter g.SB_err (List.replicate g.radius.length true)
      = g.SB_err := by rw [h1, h2]; exact maskFilter_replicate_true _
  have hfil : galaxy_fit2_filtered g = (g.radius, g.SB, g.SB_err) := by
    show (maskFilter g.radius (finiteMask g.radius g.SB g.SB_err),
          maskFilter g.SB (finiteMask g.radius g.SB g.SB_err),
          maskFilter g.SB_err (finiteMask g.radius g.SB g.SB_err))
        = (g.radius, g.SB, g.SB_err)
    rw [hmask, e1, e2, e3]
  refine ⟨hfil, ?_⟩
  have hw : (galaxy_fit2_call g p1 p2).2.weights
      = g.SB_err.map FloatVal.recip := by
    show (galaxy_fit2_filtered g).2.2.map FloatVal.recip = _
    rw [hfil]
  rw [hw, List.getElem?_map, hz]
  simp [FloatVal.recip]

/-- Witness for C5 (amended) on the example galaxy with its zero error
at index 1. -/
theorem fit2_zero_error_weight_inf_witness :
    gZero.SB_err[1]? = some (.fin 0) ∧
    galaxy_fit2_filtered gZero = (gZero.radius, gZero.SB, gZero.SB_err) ∧
    (galaxy_fit2_call gZero pGuess1 pGuess2).2.weights[1]? = some .posinf := by
  have h := fit2_zero_error_weight_inf gZero pGuess1 pGuess2 1 rfl rfl
    (by norm_num [gZero, galaxyInit, FloatVal.scaleRadius, FloatVal.isFinite])
    (by norm_num [gZero, galaxyInit, FloatVal.isFinite])
    (by norm_num [gZero, galaxyInit, FloatVal.isFinite])
    rfl
  exact ⟨rfl, h.1, h.2⟩

/-- Counterexample to claim C6 as stated: when the solver returns
normally but cannot produce a covariance matrix (`param_cov` is None),
the two-component fit does not signal an explicit FitFailure carrying
the solver diagnostic: the best-fit parameters have already been
printed, and what escapes is the numpy exception raised by
`np.diag(None)` on line 139 — outside the try/except — whose payload is
not a solver diagnostic; the single-component fit escapes with the same
numpy exception. -/
theorem fit_missing_cov_counterexample :
    (galaxy_fit2_run (.returns none)).outcome = .exn .numpyDiagNone ∧
    (galaxy_fit2_run (.returns none)).failsWithSolverDiag = false ∧
    (galaxy_fit2_run (.returns none)).printed = ["", "<best-fit parameters>"] ∧
    (galaxy_fit1_run (.returns none)).outcome = .exn .numpyDiagNone ∧
    (galaxy_fit1_run (.returns none)).failsWithSolverDiag = false :=
  ⟨rfl, rfl, rfl, rfl, rfl⟩

/-- Claim C6 (amended): when the solver produces no covariance matrix,
neither fit completes normally — the numpy exception from the
`sqrt(diag(param_cov))` line propagates to the caller in both fits, so
the caller is never handed a completed result with an undefined
covariance and no default is substituted; but the escaping error is the
generic numpy exception, not an explicit FitFailure carrying a solver
diagnostic (the two-component fit never escapes with the solver
diagnostic at all), and it is raised only after the best-fit parameters
were printed. -/
theorem fit_missing_cov_raises (s : SolverOutcome) :
    ((galaxy_fit1_run s).outcome = .ok ↔ ∃ c, s = .returns (some c)) ∧
    ((galaxy_fit1_run s).outcome = .exn .numpyDiagNone ↔ s = .returns none) ∧
    ((galaxy_fit2_run s).outcome = .exn .numpyDiagNone ↔ s = .returns none) ∧
    (galaxy_fit2_run s).failsWithSolverDiag = false := by
  rcases s with msg | _ | c <;>
    simp [galaxy_fit1_run, galaxy_fit2_run, FitRun.failsWithSolverDiag]

/-- Claim C7: the physical radius stored at construction satisfies
`radius_i = distance * arcsec_i / 206` at every index holding a finite
angular value. -/
theorem galaxyInit_radius_conversion (name : String) (d : ℚ)
    (arcsec SB SB_err : List FloatVal) (i : ℕ) (a : ℚ)
    (h : arcsec[i]? = some (.fin a)) :
    (galaxyInit name d arcsec SB SB_err).radius[i]?
      = some (.fin (d * a / 206)) := by
  show (arcsec.map (FloatVal.scaleRadius d))[i]? = _
  rw [List.getElem?_map, h]
  rfl

/-- Witness for C7: a galaxy at distance 2 with an angular radius of
103 arcsec stores the physical radius 2 * 103 / 206 = 1 kpc. -/
theorem galaxyInit_radius_conversion_witness :
    ([FloatVal.fin 103, FloatVal.fin 206] : List FloatVal)[0]?
      = some (.fin 103) ∧
    (galaxyInit "Enn" 2 [.fin 103, .fin 206] [.fin 10, .nan]
        [.fin 1, .fin 2]).radius[0]? = some (.fin (2 * 103 / 206)) :=
  ⟨rfl, galaxyInit_radius_conversion "Enn" 2 [.fin 103, .fin 206]
    [.fin 10, .nan] [.fin 1, .fin 2] 0 103 rfl⟩

/-- Claim C8: neither fit mutates the observed profile: in the explicit
state-passing embedding of the method bodies (which contain no
attribute assignment) the post-state equals the pre-state field by
field, and the filtered triple of the two-component fit is a fresh
value derived from the stored arrays. -/
theorem fit_preserves_stored_profile (g : Galaxy) (a r nm : ℚ)
    (p1 p2 : SersicGuess) :
    (galaxy_fit1_call g a r nm).1 = g ∧
    (galaxy_fit2_call g p1 p2).1 = g ∧
    ((galaxy_fit2_call g p1 p2).1).radius = g.radius ∧
    ((galaxy_fit2_call g p1 p2).1).SB = g.SB ∧
    ((galaxy_fit2_call g p1 p2).1).SB_err = g.SB_err ∧
    galaxy_fit2_filtered g
      = (maskFilter g.radius (finiteMask g.radius g.SB g.SB_err),
         maskFilter g.SB (finiteMask g.radius g.SB g.SB_err),
         maskFilter g.SB_err (finiteMask g.radius g.SB g.SB_err)) :=
  ⟨rfl, rfl, rfl, rfl, rfl, rfl⟩

/-- Counterexample to claim C9 as stated: under the claim's own notion
of a valid component (any amplitude, effective_radius > 0,
sersic_index > 0; compare C1), the amplitude -1 gives a NEGATIVE value
at radius 0, so the result is not always positive. -/
theorem sersic1D_at_zero_negative_amplitude :
    (0 : ℝ) < 1 ∧ sersic1D b_n_std (-1) 1 1 0 < 0 := by
  refine ⟨one_pos, ?_⟩
  rw [sersic1D_zero_eval b_n_std (-1) 1 1 one_pos]
  have h := Real.exp_pos (b_n_std 1)
  linarith

/-- Claim C9 (amended): for effective_radius > 0 and sersic_index > 0
the Sersic brightness at radius 0 is defined (the power term is the
total function rpow, so nothing raises) and equals
`amplitude * exp(b_n(sersic_index))`, a finite value; it is positive
whenever the amplitude is positive. -/
theorem sersic1D_at_zero_defined (bn : ℝ → ℝ) (a re n : ℝ)
    (hre : 0 < re) (hn : 0 < n) :
    sersic1D bn a re n 0 = a * Real.exp (bn n) ∧
    (0 < a → 0 < sersic1D bn a re n 0) := by
  refine ⟨sersic1D_zero_eval bn a re n hn, fun ha => ?_⟩
  rw [sersic1D_zero_eval bn a re n hn]
  exact mul_pos ha (Real.exp_pos _)

/-- Witness for C9 (amended) at amplitude 2, effective radius 1,
index 1. -/
theorem sersic1D_at_zero_defined_witness :
    (0 : ℝ) < 1 ∧ (0 : ℝ) < 2 ∧
    sersic1D b_n_std 2 1 1 0 = 2 * Real.exp (b_n_std 1) ∧
    0 < sersic1D b_n_std 2 1 1 0 :=
  ⟨one_pos, by norm_num,
    (sersic1D_at_zero_defined b_n_std 2 1 1 one_pos one_pos).1,
    (sersic1D_at_zero_defined b_n_std 2 1 1 one_pos one_pos).2 (by norm_num)⟩

/-- Claim C10: for every diagnostic message, a solver call raising
inside `galaxy_fit2` is caught by its try/except: the method prints the
diagnostic and returns None normally, re-raising nothing; the
single-component fit has no handler, so the same solver exception
escapes `galaxy_fit1` to its caller. -/
theorem fit2_catches_solver_exception (msg : String) :
    galaxy_fit2_run (.raises msg)
      = ⟨["Error during fitting: " ++ msg], .ok⟩ ∧
    galaxy_fit1_run (.raises msg)
      = ⟨[], .exn (.solverError msg)⟩ :=
  ⟨rfl, rfl⟩
